import Mathlib

/-!
Verification of the manifest-values rule evaluator
(`lighthouse-core/gather/computed/manifest-values.js`).

The evaluator receives a manifest artifact that is either `null` (fetch
failed), an object whose `value` is `undefined` (parse failed), or an
object carrying a normalized manifest value.  It evaluates a fixed
catalog of nine rules and returns a report.

The icon-size helpers (`lighthouse-core/lib/icons`) are an external
collaborator: the evaluator is parametrized here by an `IconQuery`
record holding the two functions it imports (`doExist`,
`sizeAtLeast`), so every theorem below quantifies over the
collaborator unless stated otherwise.
-/

/-- A normalized manifest field wrapper: `{value: ...}` where the wrapped
value is a string or `undefined` (`none`). -/
structure StringField where
  value : Option String
deriving Repr, DecidableEq

/-- An icon descriptor as it appears in the normalized `icons` list. -/
structure Icon where
  sizes : Option String
deriving Repr, DecidableEq

/-- The `icons` field wrapper: its wrapped value is a list of icon
descriptors or `undefined` (`none`). -/
structure IconsField where
  value : Option (List Icon)
deriving Repr, DecidableEq

/-- A normalized manifest value.  Per the input contract, every field key
referenced by the rule catalog is present with a wrapper whose wrapped
value may itself be `undefined`. -/
structure ManifestValue where
  start_url : StringField
  icons : IconsField
  display : StringField
  background_color : StringField
  theme_color : StringField
  short_name : StringField
  name : StringField
deriving Repr, DecidableEq

/-- The manifest artifact object (the non-`null` case of the input):
`value` is the normalized manifest value, or `undefined` when parsing
failed. -/
structure Manifest where
  value : Option ManifestValue
deriving Repr, DecidableEq

/-- One evaluation result: `{id, failureText, passing}`. -/
structure CheckResult where
  id : String
  failureText : String
  passing : Bool
deriving Repr, DecidableEq

/-- The report returned by `compute_`.  `parseFailureReason` is `none`
when the source leaves the variable `undefined`. -/
structure Report where
  isParseFailure : Bool
  parseFailureReason : Option String
  allChecks : List CheckResult
deriving Repr, DecidableEq

/-- A catalog rule: `{id, failureText, validate}`. -/
structure Check where
  id : String
  failureText : String
  validate : ManifestValue → Bool

/-- The external icon-query collaborator (`require('../../lib/icons')`):
"do any icons exist" and "list icons whose declared size meets or
exceeds N px". -/
structure IconQuery where
  doExist : ManifestValue → Bool
  sizeAtLeast : Nat → ManifestValue → List Icon

/-- JavaScript truthiness of a (string-or-undefined) wrapped value:
`!!v` is false exactly on `undefined` and the empty string. -/
def jsTruthy : Option String → Bool
  | none => false
  | some s => !s.isEmpty

/-- `const PWA_DISPLAY_VALUES = ['minimal-ui', 'fullscreen', 'standalone']`. -/
def PWA_DISPLAY_VALUES : List String := ["minimal-ui", "fullscreen", "standalone"]

/-- `const SUGGESTED_SHORTNAME_LENGTH = 12`. -/
def SUGGESTED_SHORTNAME_LENGTH : Nat := 12

/-- `static get manifestChecks()`: the fixed, ordered rule catalog. -/
def manifestChecks (q : IconQuery) : List Check :=
  [ { id := "hasStartUrl",
      failureText := "Manifest does not contain a `start_url`",
      validate := fun manifestValue => jsTruthy manifestValue.start_url.value },
    { id := "hasIconsAtLeast192px",
      failureText := "Manifest does not have icons at least 192px",
      validate := fun manifestValue => q.doExist manifestValue &&
          decide ((q.sizeAtLeast 192 manifestValue).length > 0) },
    { id := "hasIconsAtLeast512px",
      failureText := "Manifest does not have icons at least 512px",
      validate := fun manifestValue => q.doExist manifestValue &&
          decide ((q.sizeAtLeast 512 manifestValue).length > 0) },
    { id := "hasPWADisplayValue",
      failureText := "Manifest\x27s `display` value is not one of: minimal-ui | fullscreen | standalone",
      validate := fun manifestValue =>
        match manifestValue.display.value with
        | some s => PWA_DISPLAY_VALUES.contains s
        | none => false },
    { id := "hasBackgroundColor",
      failureText := "Manifest does not have `background_color`",
      validate := fun manifestValue => jsTruthy manifestValue.background_color.value },
    { id := "hasThemeColor",
      failureText := "Manifest does not have `theme_color`",
      validate := fun manifestValue => jsTruthy manifestValue.theme_color.value },
    { id := "hasShortName",
      failureText := "Manifest does not have `short_name`",
      validate := fun manifestValue => jsTruthy manifestValue.short_name.value },
    { id := "shortNameLength",
      failureText := "Manifest `short_name` will be truncated when displayed on the homescreen",
      validate := fun manifestValue => jsTruthy manifestValue.short_name.value &&
          decide ((manifestValue.short_name.value.getD "").length ≤ SUGGESTED_SHORTNAME_LENGTH) },
    { id := "hasName",
      failureText := "Manifest does not have `name`",
      validate := fun manifestValue => jsTruthy manifestValue.name.value } ]

/-- `static get validityIds()`. -/
def validityIds : List String := ["hasManifest", "hasParseableManifest"]

/-- `async compute_(manifest)`: the evaluator.  The input is `none` for a
`null` manifest, otherwise the manifest object. -/
def compute_ (q : IconQuery) : Option Manifest → Report
  | none =>
    { isParseFailure := true,
      parseFailureReason := some "No manifest was fetched",
      allChecks := [] }
  | some manifest =>
    match manifest.value with
    | none =>
      { isParseFailure := true,
        parseFailureReason := some "Manifest failed to parse as valid JSON",
        allChecks := [] }
    | some manifestValue =>
      { isParseFailure := false,
        parseFailureReason := none,
        allChecks := (manifestChecks q).map (fun item =>
          { id := item.id,
            failureText := item.failureText,
            passing := item.validate manifestValue }) }

/-- The `passing` flag of the report entry with the given rule id. -/
def checkPassing (rep : Report) (id : String) : Option Bool :=
  (rep.allChecks.find? (fun r => r.id == id)).map CheckResult.passing

/-- A trivial icon-query collaborator, used to instantiate universally
quantified theorems at a concrete input. -/
def q0 : IconQuery :=
  { doExist := fun _ => false, sizeAtLeast := fun _ _ => [] }

/-- A manifest value with every wrapped value `undefined`. -/
def mvEmpty : ManifestValue :=
  { start_url := ⟨none⟩, icons := ⟨none⟩, display := ⟨none⟩,
    background_color := ⟨none⟩, theme_color := ⟨none⟩,
    short_name := ⟨none⟩, name := ⟨none⟩ }

/-- C1: a `null` manifest yields the fetch-failure report — for every
icon-query collaborator (hence no rule predicate contributes), the report
has `isParseFailure = true`, reason "No manifest was fetched", and no
checks. -/
theorem compute_null_manifest (q : IconQuery) :
    compute_ q none =
      { isParseFailure := true,
        parseFailureReason := some "No manifest was fetched",
        allChecks := [] } := rfl

/-- C2: a manifest whose `value` is `undefined` yields the parse-failure
report — for every icon-query collaborator, `isParseFailure = true`,
reason "Manifest failed to parse as valid JSON", and no checks. -/
theorem compute_unparsed_manifest (q : IconQuery) (m : Manifest)
    (h : m.value = none) :
    compute_ q (some m) =
      { isParseFailure := true,
        parseFailureReason := some "Manifest failed to parse as valid JSON",
        allChecks := [] } := by
  simp [compute_, h]

theorem compute_unparsed_manifest_witness :
    compute_ q0 (some ⟨none⟩) =
      { isParseFailure := true,
        parseFailureReason := some "Manifest failed to parse as valid JSON",
        allChecks := [] } :=
  compute_unparsed_manifest q0 ⟨none⟩ rfl

/-- C3: for a parsed manifest, the report is not a parse failure and
`allChecks` carries exactly one result per catalog rule in catalog
order: same length, and at every index the result's `id` and
`failureText` are the catalog rule's. -/
theorem compute_valid_report_shape (q : IconQuery) (m : Manifest)
    (mv : ManifestValue) (h : m.value = some mv) :
    (compute_ q (some m)).isParseFailure = false ∧
    (compute_ q (some m)).allChecks.length = (manifestChecks q).length ∧
    ∀ i, i < (manifestChecks q).length →
      ((compute_ q (some m)).allChecks[i]?).map CheckResult.id =
        ((manifestChecks q)[i]?).map Check.id ∧
      ((compute_ q (some m)).allChecks[i]?).map CheckResult.failureText =
        ((manifestChecks q)[i]?).map Check.failureText := by
  refine ⟨by simp [compute_, h], by simp [compute_, h], ?_⟩
  intro i hi
  cases h2 : (manifestChecks q)[i]? <;>
    simp [compute_, h, List.getElem?_map, h2]

theorem compute_valid_report_shape_witness :
    (compute_ q0 (some ⟨some mvEmpty⟩)).allChecks.length =
      (manifestChecks q0).length :=
  (compute_valid_report_shape q0 ⟨some mvEmpty⟩ mvEmpty rfl).2.1

/-- C4: for a parsed manifest the report's `parseFailureReason` is
absent, and over all inputs the reason is set only when
`isParseFailure` is true. -/
theorem parseFailureReason_only_on_failure (q : IconQuery) (m : Manifest)
    (mv : ManifestValue) (h : m.value = some mv) :
    (compute_ q (some m)).parseFailureReason = none ∧
    ∀ inp : Option Manifest, (compute_ q inp).parseFailureReason ≠ none →
      (compute_ q inp).isParseFailure = true := by
  constructor
  · simp [compute_, h]
  · intro inp hne
    match inp with
    | none => rfl
    | some m2 =>
      cases h2 : m2.value <;> simp [compute_, h2] at hne ⊢

theorem parseFailureReason_only_on_failure_witness :
    (compute_ q0 (some ⟨some mvEmpty⟩)).parseFailureReason = none :=
  (parseFailureReason_only_on_failure q0 ⟨some mvEmpty⟩ mvEmpty rfl).1

/-- A string is js-falsy exactly when it is empty. -/
theorem isEmpty_eq_false_iff (s : String) : s.isEmpty = false ↔ s ≠ "" := by
  rw [Bool.eq_false_iff, Ne, Ne]
  exact not_congr (String.isEmpty_iff s)

/-- A manifest value whose `short_name` is "ThisNameIsWayTooLong". -/
def mvLong : ManifestValue :=
  { mvEmpty with short_name := ⟨some "ThisNameIsWayTooLong"⟩ }

/-- A manifest value whose `display` is "browser". -/
def mvBrowser : ManifestValue :=
  { mvEmpty with display := ⟨some "browser"⟩ }

/-- A manifest value whose `short_name` is "Short" (5 characters). -/
def mvShort : ManifestValue :=
  { mvEmpty with short_name := ⟨some "Short"⟩ }

/-- C5: the `shortNameLength` entry passes iff `short_name` holds a
truthy (non-empty) string of at most `SUGGESTED_SHORTNAME_LENGTH`
characters; on the 20-character "ThisNameIsWayTooLong" it fails while
`hasShortName` passes. -/
theorem shortNameLength_spec (q : IconQuery) (mv : ManifestValue) :
    (∀ b, checkPassing (compute_ q (some ⟨some mv⟩)) "shortNameLength" = some b →
      (b = true ↔ ∃ s, mv.short_name.value = some s ∧ s ≠ "" ∧
        s.length ≤ SUGGESTED_SHORTNAME_LENGTH)) ∧
    checkPassing (compute_ q (some ⟨some mvLong⟩)) "shortNameLength" = some false ∧
    checkPassing (compute_ q (some ⟨some mvLong⟩)) "hasShortName" = some true := by
  refine ⟨?_, ?_, ?_⟩
  · intro b hb
    simp [checkPassing, compute_, manifestChecks] at hb
    subst hb
    cases h : mv.short_name.value with
    | none => simp [h, jsTruthy]
    | some s =>
      simp [h, jsTruthy, Bool.and_eq_true, isEmpty_eq_false_iff]
  · simp [checkPassing, compute_, manifestChecks, mvLong, mvEmpty, jsTruthy,
      SUGGESTED_SHORTNAME_LENGTH]
    decide
  · simp [checkPassing, compute_, manifestChecks, mvLong, mvEmpty, jsTruthy]
    decide

theorem shortNameLength_spec_witness :
    (false = true ↔ ∃ s, mvLong.short_name.value = some s ∧ s ≠ "" ∧
      s.length ≤ SUGGESTED_SHORTNAME_LENGTH) ∧
    checkPassing (compute_ q0 (some ⟨some mvLong⟩)) "hasShortName" = some true :=
  ⟨(shortNameLength_spec q0 mvLong).1 false (shortNameLength_spec q0 mvLong).2.1,
   (shortNameLength_spec q0 mvLong).2.2⟩

/-- C6: the `hasPWADisplayValue` entry passes iff the `display` value is
one of `PWA_DISPLAY_VALUES`; on "browser" it fails. -/
theorem hasPWADisplayValue_spec (q : IconQuery) (mv : ManifestValue) :
    (∀ b, checkPassing (compute_ q (some ⟨some mv⟩)) "hasPWADisplayValue" = some b →
      (b = true ↔ ∃ s, mv.display.value = some s ∧ s ∈ PWA_DISPLAY_VALUES)) ∧
    checkPassing (compute_ q (some ⟨some mvBrowser⟩)) "hasPWADisplayValue" = some false := by
  constructor
  · intro b hb
    simp [checkPassing, compute_, manifestChecks] at hb
    cases h : mv.display.value with
    | none => simp [h] at hb; simp [← hb, h]
    | some s => simp [h] at hb; subst hb; simp [h]
  · simp [checkPassing, compute_, manifestChecks, mvBrowser, mvEmpty,
      PWA_DISPLAY_VALUES]

theorem hasPWADisplayValue_spec_witness :
    (false = true ↔ ∃ s, mvBrowser.display.value = some s ∧
      s ∈ PWA_DISPLAY_VALUES) :=
  (hasPWADisplayValue_spec q0 mvBrowser).1 false
    (hasPWADisplayValue_spec q0 mvBrowser).2

/-- C7: each icon-size entry (thresholds 192 and 512) passes iff the
icon-query collaborator reports icons exist and returns a non-empty
list at that threshold; when the collaborator reports no icons exist,
both entries fail. -/
theorem hasIconsAtLeast_spec (q : IconQuery) (mv : ManifestValue) :
    (∀ b, checkPassing (compute_ q (some ⟨some mv⟩)) "hasIconsAtLeast192px" = some b →
      (b = true ↔ q.doExist mv = true ∧ (q.sizeAtLeast 192 mv).length > 0)) ∧
    (∀ b, checkPassing (compute_ q (some ⟨some mv⟩)) "hasIconsAtLeast512px" = some b →
      (b = true ↔ q.doExist mv = true ∧ (q.sizeAtLeast 512 mv).length > 0)) ∧
    (q.doExist mv = false →
      checkPassing (compute_ q (some ⟨some mv⟩)) "hasIconsAtLeast192px" = some false ∧
      checkPassing (compute_ q (some ⟨some mv⟩)) "hasIconsAtLeast512px" = some false) := by
  refine ⟨?_, ?_, ?_⟩
  · intro b hb
    simp [checkPassing, compute_, manifestChecks] at hb
    subst hb
    simp [Bool.and_eq_true]
  · intro b hb
    simp [checkPassing, compute_, manifestChecks] at hb
    subst hb
    simp [Bool.and_eq_true]
  · intro hfalse
    constructor <;> simp [checkPassing, compute_, manifestChecks, hfalse]

theorem hasIconsAtLeast_spec_witness :
    checkPassing (compute_ q0 (some ⟨some mvEmpty⟩)) "hasIconsAtLeast192px" = some false ∧
    checkPassing (compute_ q0 (some ⟨some mvEmpty⟩)) "hasIconsAtLeast512px" = some false :=
  (hasIconsAtLeast_spec q0 mvEmpty).2.2 rfl

/-- C10: if the `shortNameLength` entry passes then the `hasShortName`
entry passes as well. -/
theorem shortNameLength_implies_hasShortName (q : IconQuery) (mv : ManifestValue)
    (b1 b2 : Bool)
    (h1 : checkPassing (compute_ q (some ⟨some mv⟩)) "shortNameLength" = some b1)
    (h2 : checkPassing (compute_ q (some ⟨some mv⟩)) "hasShortName" = some b2)
    (hb : b1 = true) : b2 = true := by
  simp [checkPassing, compute_, manifestChecks] at h1 h2
  subst h1; subst h2
  exact (Bool.and_eq_true _ _ |>.mp hb).1

theorem shortNameLength_implies_hasShortName_witness : (true : Bool) = true :=
  shortNameLength_implies_hasShortName q0 mvShort true true rfl rfl rfl

/-- The manifest fields referenced by the rule with the given id: two
manifest values related by this predicate agree on every field that the
rule's predicate reads, and may differ anywhere else. -/
def referencedAgree (id : String) (a b : ManifestValue) : Prop :=
  if id = "hasStartUrl" then a.start_url = b.start_url
  else if id = "hasIconsAtLeast192px" ∨ id = "hasIconsAtLeast512px" then a.icons = b.icons
  else if id = "hasPWADisplayValue" then a.display = b.display
  else if id = "hasBackgroundColor" then a.background_color = b.background_color
  else if id = "hasThemeColor" then a.theme_color = b.theme_color
  else if id = "hasShortName" ∨ id = "shortNameLength" then a.short_name = b.short_name
  else if id = "hasName" then a.name = b.name
  else True

/-- The icon-query collaborator reads only the `icons` field of the
manifest value it is handed. -/
def readsOnlyIcons (q : IconQuery) : Prop :=
  ∀ a b : ManifestValue, a.icons = b.icons →
    q.doExist a = q.doExist b ∧ ∀ n, q.sizeAtLeast n a = q.sizeAtLeast n b

/-- C9: rule independence — for every catalog rule, two evaluations on
manifest values that agree on the fields the rule references (and may
differ on every other field) report the same `passing` value, provided
the icon-query collaborator reads only the `icons` field. -/
theorem rule_independence (q : IconQuery) (hq : readsOnlyIcons q)
    (c : Check) (hc : c ∈ manifestChecks q) (a b : ManifestValue)
    (hab : referencedAgree c.id a b) :
    checkPassing (compute_ q (some ⟨some a⟩)) c.id =
      checkPassing (compute_ q (some ⟨some b⟩)) c.id := by
  simp only [manifestChecks, List.mem_cons, List.not_mem_nil, or_false] at hc
  rcases hc with rfl|rfl|rfl|rfl|rfl|rfl|rfl|rfl|rfl
  · simp [referencedAgree] at hab
    simp [checkPassing, compute_, manifestChecks, hab]
  · simp [referencedAgree] at hab
    obtain ⟨h1, h2⟩ := hq a b hab
    simp [checkPassing, compute_, manifestChecks, h1, h2]
  · simp [referencedAgree] at hab
    obtain ⟨h1, h2⟩ := hq a b hab
    simp [checkPassing, compute_, manifestChecks, h1, h2]
  · simp [referencedAgree] at hab
    simp [checkPassing, compute_, manifestChecks, hab]
  · simp [referencedAgree] at hab
    simp [checkPassing, compute_, manifestChecks, hab]
  · simp [referencedAgree] at hab
    simp [checkPassing, compute_, manifestChecks, hab]
  · simp [referencedAgree] at hab
    simp [checkPassing, compute_, manifestChecks, hab]
  · simp [referencedAgree] at hab
    simp [checkPassing, compute_, manifestChecks, hab]
  · simp [referencedAgree] at hab
    simp [checkPassing, compute_, manifestChecks, hab]

theorem rule_independence_witness :
    checkPassing (compute_ q0 (some ⟨some mvEmpty⟩)) "hasStartUrl" =
      checkPassing (compute_ q0 (some ⟨some { mvEmpty with name := ⟨some "x"⟩ }⟩))
        "hasStartUrl" :=
  rule_independence q0 (fun _ _ _ => ⟨rfl, fun _ => rfl⟩)
    { id := "hasStartUrl",
      failureText := "Manifest does not contain a `start_url`",
      validate := fun manifestValue => jsTruthy manifestValue.start_url.value }
    (List.mem_cons_self _ _) mvEmpty { mvEmpty with name := ⟨some "x"⟩ }
    (by simp [referencedAgree, mvEmpty])

/-- A raw manifest mapping in which a referenced field key may be absent
altogether (`none`), as opposed to present with an `undefined` wrapped
value.  Used to model the member-access chains of the predicates. -/
structure ManifestValueRaw where
  start_url : Option StringField
  icons : Option IconsField
  display : Option StringField
  background_color : Option StringField
  theme_color : Option StringField
  short_name : Option StringField
  name : Option StringField
deriving Repr, DecidableEq

/-- A fallible icon-query collaborator over raw mappings: `none` models a
thrown exception. -/
structure IconQueryE where
  doExist : ManifestValueRaw → Option Bool
  sizeAtLeast : Nat → ManifestValueRaw → Option (List Icon)

/-- A catalog rule over raw mappings; `none` models the predicate
throwing. -/
structure CheckE where
  id : String
  validate : ManifestValueRaw → Option Bool

/-- The member access `field.value`: throws (`none`) when the field key
is absent from the mapping. -/
def fieldValue (f : Option StringField) : Option (Option String) :=
  f.map StringField.value

/-- The rule catalog's predicates re-read over raw mappings, making each
`manifestValue.field.value` access explicit (`&&` short-circuits as in
the source, so the icon-size query only runs when icons exist). -/
def manifestChecksE (qE : IconQueryE) : List CheckE :=
  [ { id := "hasStartUrl",
      validate := fun raw => (fieldValue raw.start_url).map jsTruthy },
    { id := "hasIconsAtLeast192px",
      validate := fun raw =>
        (qE.doExist raw).bind (fun e =>
          if e then (qE.sizeAtLeast 192 raw).map (fun l => decide (l.length > 0))
          else some false) },
    { id := "hasIconsAtLeast512px",
      validate := fun raw =>
        (qE.doExist raw).bind (fun e =>
          if e then (qE.sizeAtLeast 512 raw).map (fun l => decide (l.length > 0))
          else some false) },
    { id := "hasPWADisplayValue",
      validate := fun raw =>
        (fieldValue raw.display).map (fun v =>
          match v with
          | some s => PWA_DISPLAY_VALUES.contains s
          | none => false) },
    { id := "hasBackgroundColor",
      validate := fun raw => (fieldValue raw.background_color).map jsTruthy },
    { id := "hasThemeColor",
      validate := fun raw => (fieldValue raw.theme_color).map jsTruthy },
    { id := "hasShortName",
      validate := fun raw => (fieldValue raw.short_name).map jsTruthy },
    { id := "shortNameLength",
      validate := fun raw =>
        (fieldValue raw.short_name).map (fun v =>
          jsTruthy v && decide ((v.getD "").length ≤ SUGGESTED_SHORTNAME_LENGTH)) },
    { id := "hasName",
      validate := fun raw => (fieldValue raw.name).map jsTruthy } ]

/-- A raw mapping is well-formed when every referenced field key is
present (its wrapped value may still be `undefined`). -/
def wellFormed (raw : ManifestValueRaw) : Prop :=
  raw.start_url.isSome ∧ raw.icons.isSome ∧ raw.display.isSome ∧
  raw.background_color.isSome ∧ raw.theme_color.isSome ∧
  raw.short_name.isSome ∧ raw.name.isSome

/-- The fallible icon-query collaborator never throws when the `icons`
key is present. -/
def totalOnIcons (qE : IconQueryE) : Prop :=
  ∀ raw : ManifestValueRaw, raw.icons.isSome →
    (qE.doExist raw).isSome ∧ ∀ n, (qE.sizeAtLeast n raw).isSome

/-- C8: on a well-formed raw mapping (every referenced field key present
with a wrapper), every catalog predicate evaluates without throwing,
provided the icon-query collaborator does not throw when `icons` is
present. -/
theorem predicates_total_on_wellFormed (qE : IconQueryE) (hq : totalOnIcons qE)
    (raw : ManifestValueRaw) (hw : wellFormed raw) :
    ∀ c ∈ manifestChecksE qE, (c.validate raw).isSome := by
  obtain ⟨h1, h2, h3, h4, h5, h6, h7⟩ := hw
  intro c hc
  simp only [manifestChecksE, List.mem_cons, List.not_mem_nil, or_false] at hc
  rcases hc with rfl|rfl|rfl|rfl|rfl|rfl|rfl|rfl|rfl
  · cases hf : raw.start_url with
    | none => simp [hf] at h1
    | some f => simp [fieldValue, hf]
  · obtain ⟨he, hs⟩ := hq raw h2
    cases hd : qE.doExist raw with
    | none => simp [hd] at he
    | some e =>
      cases hl : qE.sizeAtLeast 192 raw with
      | none => have := hs 192; simp [hl] at this
      | some l => cases e <;> simp [hd, hl]
  · obtain ⟨he, hs⟩ := hq raw h2
    cases hd : qE.doExist raw with
    | none => simp [hd] at he
    | some e =>
      cases hl : qE.sizeAtLeast 512 raw with
      | none => have := hs 512; simp [hl] at this
      | some l => cases e <;> simp [hd, hl]
  · cases hf : raw.display with
    | none => simp [hf] at h3
    | some f => simp [fieldValue, hf]
  · cases hf : raw.background_color with
    | none => simp [hf] at h4
    | some f => simp [fieldValue, hf]
  · cases hf : raw.theme_color with
    | none => simp [hf] at h5
    | some f => simp [fieldValue, hf]
  · cases hf : raw.short_name with
    | none => simp [hf] at h6
    | some f => simp [fieldValue, hf]
  · cases hf : raw.short_name with
    | none => simp [hf] at h6
    | some f => simp [fieldValue, hf]
  · cases hf : raw.name with
    | none => simp [hf] at h7
    | some f => simp [fieldValue, hf]

/-- A trivial fallible icon-query collaborator. -/
def qE0 : IconQueryE :=
  { doExist := fun _ => some false, sizeAtLeast := fun _ _ => some [] }

/-- A well-formed raw mapping: every field key present, every wrapped
value `undefined`. -/
def rawEmpty : ManifestValueRaw :=
  { start_url := some ⟨none⟩, icons := some ⟨none⟩, display := some ⟨none⟩,
    background_color := some ⟨none⟩, theme_color := some ⟨none⟩,
    short_name := some ⟨none⟩, name := some ⟨none⟩ }

theorem predicates_total_on_wellFormed_witness :
    (({ id := "hasStartUrl",
        validate := fun raw => (fieldValue raw.start_url).map jsTruthy } :
      CheckE).validate rawEmpty).isSome :=
  predicates_total_on_wellFormed qE0 (fun _ _ => ⟨rfl, fun _ => rfl⟩)
    rawEmpty ⟨rfl, rfl, rfl, rfl, rfl, rfl, rfl⟩
    { id := "hasStartUrl",
      validate := fun raw => (fieldValue raw.start_url).map jsTruthy }
    (List.mem_cons_self _ _)
